import Mathlib

/-!
# Verification of the dailyliminote weekly question bot

Shallow embedding of the bot's core logic (src/index.js): calendar
utilities, the user/answer spreadsheet rows, the webhook event handlers
and the scheduled batch triggers.  The external collaborators (the LINE
transport, the Google spreadsheet, the OpenAI call) are modelled as
explicit data: the spreadsheet is a record of row lists, outbound sends
are collected in a list, and transport failures for push messages are an
injected function from user id to an optional error message.

Time: the source reads the wall clock with new Date() in many places
during one handler invocation; the embedding passes a single civil date
"now" (the source compares timestamps only at day granularity, via
toISOString().split('T')[0], getDay(), getMonth()/getFullYear(), so a
civil date carries all information the compared paths use, and the
server clock is taken as UTC).  Math.random question selection is an
injected natural number used modulo the candidate count.
-/

namespace Liminote

/-- A civil (calendar) date.  month is 0-based (JavaScript convention:
Date.getMonth returns 0..11); day is 1-based. -/
structure Date where
  year : Nat
  month : Nat
  day : Nat
deriving Repr, DecidableEq

/-- Day count since 0000-03-01 for a civil date with 1-based month
(Howard Hinnant's days_from_civil, restricted to years >= 1 so the
arithmetic stays in Nat).  Used to embed JavaScript Date.UTC
arithmetic. -/
def daysFromCivil (y : Nat) (m : Nat) (d : Nat) : Nat :=
  let y' := if m ≤ 2 then y - 1 else y
  let era := y' / 400
  let yoe := y' % 400
  let mp := if m > 2 then m - 3 else m + 9
  let doy := (153 * mp + 2) / 5 + d - 1
  let doe := yoe * 365 + yoe / 4 - yoe / 100 + doy
  era * 146097 + doe

/-- Day count of a civil date (month stored 0-based as in the model). -/
def Date.toDays (dt : Date) : Nat :=
  daysFromCivil dt.year (dt.month + 1) dt.day

/-- Civil year of a day count (Hinnant's civil_from_days, year part). -/
def yearOfDays (z : Nat) : Nat :=
  let era := z / 146097
  let doe := z % 146097
  let yoe := (doe - doe / 1460 + doe / 36524 - doe / 146096) / 365
  let y := yoe + era * 400
  let doy := doe - (365 * yoe + yoe / 4 - yoe / 100)
  let mp := (5 * doy + 2) / 153
  let m := if mp < 10 then mp + 3 else mp - 9
  if m ≤ 2 then y + 1 else y

/-- JavaScript Date.getDay / getUTCDay: 0 = Sunday .. 6 = Saturday.
Day 0 of the count (0000-03-01) is a Wednesday, hence the +3. -/
def dayOfWeek (dt : Date) : Nat :=
  (dt.toDays + 3) % 7

/-- getWeekNumber(date) from src/index.js: move to the Thursday of the
date's ISO week, then count weeks from January 1 of that Thursday's
year.  The millisecond difference divided by 86400000 in the source is
exactly the day-count difference (both dates are UTC midnights). -/
def getWeekNumber (dt : Date) : Nat :=
  let d0 := dt.toDays
  let wd := dayOfWeek dt
  let dayNum := if wd = 0 then 7 else wd
  let dThu := d0 + 4 - dayNum
  let yearStart := daysFromCivil (yearOfDays dThu) 1 1
  (dThu - yearStart + 1 + 6) / 7

/-- The year that getWeekNumber's internal Thursday falls in, i.e. the
ISO week-based year of the date (d.getUTCFullYear() after the shift in
the source). -/
def isoWeekYearOf (dt : Date) : Nat :=
  let d0 := dt.toDays
  let wd := dayOfWeek dt
  let dayNum := if wd = 0 then 7 else wd
  yearOfDays (d0 + 4 - dayNum)

/-- getCurrentWeekString() from src/index.js: calendar year of now,
then '-W' and the zero-padded week number. -/
def getCurrentWeekString (now : Date) : String :=
  let weekNum := getWeekNumber now
  toString now.year ++ "-W" ++
    (if weekNum < 10 then "0" ++ toString weekNum else toString weekNum)

/-- getCurrentDayString() from src/index.js. -/
def getCurrentDayString (now : Date) : String :=
  match dayOfWeek now with
  | 0 => "SUN"
  | 1 => "MON"
  | 2 => "TUE"
  | 3 => "WED"
  | 4 => "THU"
  | 5 => "FRI"
  | 6 => "SAT"
  | _ => ""

/-- Zero-pad a number to two digits (for ISO date strings). -/
def pad2 (n : Nat) : String :=
  if n < 10 then "0" ++ toString n else toString n

/-- Date.toISOString() at day granularity (the model keeps no
time-of-day; timestamps the source compares all reduce to the date
part). -/
def Date.isoString (dt : Date) : String :=
  toString dt.year ++ "-" ++ pad2 (dt.month + 1) ++ "-" ++ pad2 dt.day ++
    "T00:00:00.000Z"

/-! ## Data model: spreadsheet rows and the store -/

/-- A row of the Users sheet.  Cells the source reads as strings stay
strings; lastActive / CreatedAt are stored timestamps (day
granularity); noResponseWeek is read in the source as
Number(cell) || 0, so it is kept as a Nat. -/
structure UserRow where
  userId : String
  status : String
  currentTheme : String
  currentWeek : String
  lastActive : Option Date
  lastQuestionId : String
  noResponseWeek : Nat
  createdAt : Option Date
deriving Repr, DecidableEq

/-- A row of the Answers sheet.  saveUserAnswer writes the boolean
false into the skipped cell, which the sheets API yields back as the
string FALSE (the form countWeeklyResponses tests for). -/
structure AnswerRow where
  answerId : String
  userId : String
  week : String
  theme : String
  day : String
  questionId : String
  question : String
  answer : String
  skipped : String
  timestamp : Date
deriving Repr, DecidableEq

/-- A template button descriptor (one entry of the JSON-parsed Buttons
cell). -/
structure Button where
  label : String
  data : String
deriving Repr, DecidableEq

/-- A row of the Messages sheet; buttons is the JSON-parsed Buttons
cell (none when the cell is empty); active models
Active === 'TRUE' || Active === true. -/
structure MessageRow where
  messageId : String
  message : String
  buttons : Option (List Button)
  active : Bool
deriving Repr, DecidableEq

/-- A row of the Questions sheet. -/
structure QuestionRow where
  questionId : String
  theme : String
  day : String
  question : String
  active : Bool
deriving Repr, DecidableEq

/-- The spreadsheet: the four sheets the core logic touches. -/
structure Store where
  users : List UserRow
  answers : List AnswerRow
  messages : List MessageRow
  questions : List QuestionRow
deriving Repr, DecidableEq

/-- An outbound LINE message: plain text, or a buttons template
(createMessageObject's two shapes). -/
inductive LineMessage where
  | text (s : String)
  | buttonTemplate (altText : String) (body : String) (actions : List Button)
deriving Repr, DecidableEq

/-- An outbound send: client.replyMessage or client.pushMessage. -/
inductive OutMessage where
  | reply (replyToken : String) (msg : LineMessage)
  | push (userId : String) (msg : LineMessage)
deriving Repr, DecidableEq

/-- createMessageObject(text, buttons) from src/index.js.  String.take
models the UTF-16 substring truncations at character granularity. -/
def createMessageObject (text : String) (buttons : Option (List Button)) :
    LineMessage :=
  match buttons with
  | some bs =>
    if bs.length > 0 then
      .buttonTemplate (text.take 400) (text.take 160)
        (bs.map fun b => { label := b.label.take 20, data := b.data })
    else .text text
  | none => .text text

/-- JavaScript String.prototype.replace with a string pattern replaces
only the first occurrence. -/
def jsReplaceOnce (s pat repl : String) : String :=
  match s.splitOn pat with
  | [] => s
  | [_] => s
  | a :: rest => a ++ repl ++ String.intercalate pat rest

/-- THEME_MAP from src/index.js. -/
def THEME_MAP (t : String) : Option String :=
  if t = "SELF" then some "自己"
  else if t = "CREATION" then some "創作"
  else if t = "FAMILY" then some "家庭"
  else none

/-! ## Store operations (section 5 of src/index.js) -/

/-- rows.find(row => row.get('userId') === userId): first matching
Users row. -/
def findUser (st : Store) (uid : String) : Option UserRow :=
  st.users.find? (fun r => r.userId == uid)

/-- Replace the first element satisfying p by its image under f (the
source finds a row object, mutates it and saves it). -/
def updateFirst (p : α → Bool) (f : α → α) : List α → List α
  | [] => []
  | x :: xs => if p x then f x :: xs else x :: updateFirst p f xs

/-- getOrCreateUser from src/index.js: return the existing row, or
append a fresh row with status new (empty cells for the remaining
columns). -/
def getOrCreateUser (uid : String) (st : Store) (now : Date) :
    UserRow × Store :=
  match findUser st uid with
  | some row => (row, st)
  | none =>
    let newRow : UserRow :=
      { userId := uid, status := "new", currentTheme := "", currentWeek := "",
        lastActive := none, lastQuestionId := "", noResponseWeek := 0,
        createdAt := some now }
    (newRow, { st with users := st.users ++ [newRow] })

/-- updateUserStatus from src/index.js: set status and lastActive on
the first matching row (no-op when the user is absent). -/
def updateUserStatus (uid status : String) (st : Store) (now : Date) : Store :=
  { st with
    users := updateFirst (fun r => r.userId == uid)
      (fun r => { r with status := status, lastActive := some now }) st.users }

/-- saveUserTheme from src/index.js. -/
def saveUserTheme (uid theme : String) (st : Store) (now : Date) : Store :=
  { st with
    users := updateFirst (fun r => r.userId == uid)
      (fun r =>
        { r with
            status := "active",
            currentTheme := theme,
            currentWeek := getCurrentWeekString now,
            lastActive := some now })
      st.users }

/-- getMessage from src/index.js: first active Messages row with the
given id. -/
def getMessage (messageId : String) (st : Store) : Option MessageRow :=
  st.messages.find? (fun r => r.messageId == messageId && r.active)

/-- getQuestion from src/index.js: uniform-random choice among active
rows matching (theme, day); rand is the injected random source
(Math.floor(Math.random() * n) becomes rand % n). -/
def getQuestion (theme day : String) (st : Store) (rand : Nat) :
    Option QuestionRow :=
  let matching := st.questions.filter
    (fun r => r.theme == theme && r.day == day && r.active)
  if h : matching.length > 0 then
    some (matching.get ⟨rand % matching.length, Nat.mod_lt _ h⟩)
  else none

/-- getQuestionById from src/index.js (no Active filter). -/
def getQuestionById (questionId : String) (st : Store) : Option QuestionRow :=
  st.questions.find? (fun r => r.questionId == questionId)

/-- saveUserAnswer from src/index.js: when the user has no pending
question (empty lastQuestionId) nothing is written; otherwise append
one Answers row and reset noResponseWeek / lastQuestionId on the user
row.  The AnswerID 'A' + Date.getTime() is modelled at day
granularity. -/
def saveUserAnswer (uid answer : String) (st : Store) (now : Date) : Store :=
  let user := (getOrCreateUser uid st now).1
  let st1 := (getOrCreateUser uid st now).2
  if user.lastQuestionId = "" then st1
  else
    let q := getQuestionById user.lastQuestionId st1
    let newAnswer : AnswerRow :=
      { answerId := "A" ++ toString now.toDays, userId := uid,
        week := user.currentWeek, theme := user.currentTheme,
        day := getCurrentDayString now,
        questionId := match q with | some qq => qq.questionId | none => "N/A",
        question := match q with | some qq => qq.question | none => "N/A",
        answer := answer, skipped := "FALSE", timestamp := now }
    let st2 := { st1 with answers := st1.answers ++ [newAnswer] }
    { st2 with
      users := updateFirst (fun r => r.userId == uid)
        (fun r => { r with noResponseWeek := 0, lastQuestionId := "" })
        st2.users }

/-- checkTodayAnswer from src/index.js: the source scans the Answers
rows from the end and returns true on the first row of this user
dated today; that is existence of such a row. -/
def checkTodayAnswer (uid : String) (st : Store) (now : Date) : Bool :=
  st.answers.reverse.any
    (fun r => r.userId == uid && decide (r.timestamp = now))

/-- The loop body of checkYesterdayAnswer: scan (already reversed)
rows; for this user's rows, answer dated yesterday means true, an
older answer means false (early exit), a newer one keeps scanning. -/
def checkYesterdayAux (uid : String) (ydays : Nat) :
    List AnswerRow → Bool
  | [] => false
  | r :: rest =>
    if r.userId == uid then
      if r.timestamp.toDays = ydays then true
      else if r.timestamp.toDays < ydays then false
      else checkYesterdayAux uid ydays rest
    else checkYesterdayAux uid ydays rest

/-- checkYesterdayAnswer from src/index.js (comparisons reduced to day
granularity: the same-date string comparison is tested before the
strict < comparison, so only the date part can decide the result). -/
def checkYesterdayAnswer (uid : String) (st : Store) (now : Date) : Bool :=
  checkYesterdayAux uid (now.toDays - 1) st.answers.reverse

/-- countWeeklyResponses from src/index.js: non-skipped answers of the
user for the given week. -/
def countWeeklyResponses (uid week : String) (st : Store) : Nat :=
  st.answers.countP
    (fun r => r.userId == uid && r.week == week && r.skipped == "FALSE")

/-- hasEnoughMonthlyData from src/index.js: answers of the user in the
current calendar month must span at least two distinct week
identifiers (the Set of week cells). -/
def hasEnoughMonthlyData (uid : String) (st : Store) (now : Date) : Bool :=
  let monthlyAnswers := st.answers.filter
    (fun r => r.userId == uid && decide (r.timestamp.month = now.month)
      && decide (r.timestamp.year = now.year))
  if monthlyAnswers.length = 0 then false
  else (monthlyAnswers.map (fun r => r.week)).dedup.length ≥ 2

/-- getWeeklyAnswerRows from src/index.js. -/
def getWeeklyAnswerRows (uid : String) (st : Store) : List AnswerRow :=
  match findUser st uid with
  | none => []
  | some user =>
    st.answers.filter (fun r => r.userId == uid && r.week == user.currentWeek)

/-- The day-name map used by getWeeklyRecords. -/
def dayMapZh (d : String) : String :=
  if d = "MON" then "週一"
  else if d = "TUE" then "週二"
  else if d = "WED" then "週三"
  else if d = "THU" then "週四"
  else if d = "FRI" then "週五"
  else d

/-- getWeeklyRecords from src/index.js. -/
def getWeeklyRecords (uid : String) (st : Store) : String :=
  let weeklyAnswers := getWeeklyAnswerRows uid st
  if weeklyAnswers.length = 0 then
    match getMessage "NO_WEEKLY_RECORDS" st with
    | some m => m.message
    | none =>
      match getMessage "GENERIC_ERROR" st with
      | some fb => fb.message
      | none => "看來這週你沒有留下任何紀錄喔！"
  else
    let responseDays := (weeklyAnswers.map (fun r => r.day)).dedup.length
    let formatted := String.join (weeklyAnswers.map (fun r =>
      "【" ++ dayMapZh r.day ++ "】\n問：" ++ r.question ++ "\n答：" ++
        r.answer ++ "\n\n"))
    let headerText :=
      match getMessage "SATURDAY_SHOW_RECORD" st with
      | some h => jsReplaceOnce h.message "X" (toString responseDays) ++
          "\n\n---\n\n"
      | none =>
        match getMessage "RECORDS_HEADER_FALLBACK" st with
        | some fh => fh.message ++ "\n\n"
        | none => "這週的紀錄：\n\n"
    headerText ++ formatted.trim

/-! ## Webhook event handlers (section 4 of src/index.js) -/

/-- replyWithText from src/index.js: resolve the message by id, then
by fallback id, then hardcoded text; always one reply is produced
(the source additionally catches transport errors; the embedding
treats the reply transport as reliable). -/
def replyWithText (replyToken messageId : String) (st : Store)
    (fallbackId : String := "GENERIC_ERROR") : OutMessage :=
  let msg :=
    match getMessage messageId st with
    | some m => some m
    | none => getMessage fallbackId st
  .reply replyToken
    (.text (match msg with | some m => m.message | none => "系統發生錯誤"))

/-- sendWelcomeMessage from src/index.js: template chosen by weekday
(Monday or not); on success the status becomes waiting_theme on Monday
and waiting_monday otherwise; with the template missing only the
fallback reply is sent and the status is untouched. -/
def sendWelcomeMessage (replyToken uid : String) (st : Store) (now : Date) :
    Store × List OutMessage :=
  let messageId :=
    if dayOfWeek now = 1 then "WELCOME_MONDAY" else "WELCOME_OTHER_DAY"
  match getMessage messageId st with
  | some m =>
    let status := if dayOfWeek now = 1 then "waiting_theme" else "waiting_monday"
    (updateUserStatus uid status st now,
     [.reply replyToken (createMessageObject m.message m.buttons)])
  | none => (st, [replyWithText replyToken "WELCOME_FALLBACK" st])

/-- handleTextMessage from src/index.js. -/
def handleTextMessage (uid replyToken text : String) (st : Store)
    (now : Date) : Store × List OutMessage :=
  let user := (getOrCreateUser uid st now).1
  let st1 := (getOrCreateUser uid st now).2
  if user.status = "" ∨ user.status = "new" ∨ user.status = "idle" ∨
      user.status = "waiting_monday" then
    sendWelcomeMessage replyToken uid st1 now
  else if user.status = "waiting_theme" then
    (st1, [replyWithText replyToken "PROMPT_THEME_CHOICE" st1])
  else if user.status = "waiting_answer" then
    let st2 := saveUserAnswer uid text st1 now
    let m := replyWithText replyToken "HEARD" st2
    (updateUserStatus uid "active" st2 now, [m])
  else if user.status = "saturday_showed_record" then
    let m := replyWithText replyToken "SATURDAY_END" st1
    (updateUserStatus uid "active" st1 now, [m])
  else if user.status = "active" then
    (st1, [replyWithText replyToken "ACK_ACTIVE" st1])
  else
    (st1, [replyWithText replyToken "FALLBACK_GENERAL" st1])

/-- handleThemeSelection from src/index.js: persist the theme (status
active, week = this week), then reply with the confirmation template
(theme-specific, else fallback with theme substituted, else hardcoded),
offering the start-now button Monday..Friday. -/
def handleThemeSelection (replyToken uid theme : String) (st : Store)
    (now : Date) : Store × List OutMessage :=
  let st1 := saveUserTheme uid theme st now
  let text0 :=
    match getMessage ("CONFIRM_" ++ theme) st1 with
    | some m => m.message
    | none =>
      let themeChinese := (THEME_MAP theme).getD "這個主題"
      match getMessage "THEME_CONFIRM_FALLBACK" st1 with
      | some fb => jsReplaceOnce fb.message "【主題】" themeChinese
      | none => "收到。\n\n這週，我們一起關注「" ++ themeChinese ++ "」。"
  let today := dayOfWeek now
  let textAndButtons : String × Option (List Button) :=
    if 1 ≤ today ∧ today ≤ 5 then
      (text0, some [{ label := "開始回答今天問題", data := "action=start_question" }])
    else (text0 ++ "\n\n問題將從下週一開始。", none)
  (st1, [.reply replyToken
    (createMessageObject textAndButtons.1 textAndButtons.2)])

/-! ## Daily question dispatch -/

/-- The outcome of sendDailyQuestionForUser: the sent flag and reason
returned to the batch, plus the resulting store and outbound sends. -/
structure SendOutcome where
  sent : Bool
  reason : String
  store : Store
  out : List OutMessage
deriving Repr, DecidableEq

/-- The same-day test of the waiting_answer guard:
lastActive's ISO date part equals today's. -/
def sameDayAsNow (lastActive : Option Date) (now : Date) : Bool :=
  match lastActive with
  | some la => decide (la = now)
  | none => false

/-- The composed daily-question text: the optional skipped-yesterday
notice (absent on Mondays and when yesterday was answered), then the
DAILY_QUESTION template with theme and question substituted (first
occurrence each), falling back to hardcoded text. -/
def dailyQuestionText (uid : String) (st : Store) (now : Date)
    (theme : String) (q : QuestionRow) : String :=
  let themeChinese := (THEME_MAP theme).getD theme
  let skipNotice :=
    if dayOfWeek now ≠ 1 ∧ ¬checkYesterdayAnswer uid st now then
      match getMessage "SKIP_YESTERDAY" st with
      | some m => m.message ++ "\n\n"
      | none => ""
    else ""
  let body :=
    match getMessage "DAILY_QUESTION" st with
    | some m =>
      jsReplaceOnce (jsReplaceOnce m.message "【主題】" themeChinese)
        "【從問題庫隨機抽取】" q.question
    | none => "關於 " ++ themeChinese ++ "：\n\n" ++ q.question
  skipNotice ++ body

/-- sendDailyQuestionForUser from src/index.js.  fm models the push
transport: fm uid = some e means client.pushMessage throws an error
with message e for that user. -/
def sendDailyQuestionForUser (uid : String) (st : Store) (now : Date)
    (rand : Nat) (fm : String → Option String) : SendOutcome :=
  match findUser st uid with
  | none => { sent := false, reason := "User not found", store := st, out := [] }
  | some row =>
    if checkTodayAnswer uid st now then
      { sent := false, reason := "Already answered today", store := st, out := [] }
    else if ¬(row.status = "active" ∨ row.status = "waiting_answer") then
      { sent := false,
        reason := "Status is '" ++ row.status ++
          "' (not 'active' or 'waiting_answer')",
        store := st, out := [] }
    else if row.status = "waiting_answer" ∧ sameDayAsNow row.lastActive now then
      { sent := false,
        reason := "Already sent today (status: waiting_answer, lastActive: " ++
          ((row.lastActive.map Date.isoString).getD "") ++ ")",
        store := st, out := [] }
    else if row.currentTheme = "" then
      { sent := false, reason := "No theme set", store := st, out := [] }
    else
      match getQuestion row.currentTheme (getCurrentDayString now) st rand with
      | none =>
        { sent := false,
          reason := "No question found for theme=" ++ row.currentTheme ++
            ", day=" ++ getCurrentDayString now,
          store := st, out := [] }
      | some q =>
        let messageText := dailyQuestionText uid st now row.currentTheme q
        match fm uid with
        | some e =>
          { sent := false, reason := "Failed to send message: " ++ e,
            store := st, out := [] }
        | none =>
          { sent := true, reason := "Success",
            store := { st with
              users := updateFirst (fun r => r.userId == uid)
                (fun r =>
                  { r with
                      status := "waiting_answer",
                      lastQuestionId := q.questionId,
                      lastActive := some now })
                st.users },
            out := [.push uid (.text messageText)] }

/-! ## Postback handling -/

/-- Value of a hexadecimal digit character, by its code point
(48..57 digits, 65..70 upper case, 97..102 lower case). -/
def hexDigitVal (c : Char) : Option Nat :=
  let n := c.toNat
  if 48 ≤ n ∧ n ≤ 57 then some (n - 48)
  else if 65 ≤ n ∧ n ≤ 70 then some (n - 55)
  else if 97 ≤ n ∧ n ≤ 102 then some (n - 87)
  else none

/-- Percent-decoding of an ASCII character list (the reachable part of
JavaScript decodeURIComponent: the bot's button payloads are plain
ASCII key=value strings; malformed or multi-byte percent sequences,
which decodeURIComponent would reject or combine, do not occur in
them and are passed through here). -/
def percentDecodeList : List Char → List Char
  | [] => []
  | '%' :: a :: b :: rest =>
    match hexDigitVal a, hexDigitVal b with
    | some hi, some lo => Char.ofNat (16 * hi + lo) :: percentDecodeList rest
    | _, _ => '%' :: percentDecodeList (a :: b :: rest)
  | c :: rest => c :: percentDecodeList rest

/-- decodeURIComponent as used on the postback payload values. -/
def decodeURIComponentModel (s : String) : String :=
  String.mk (percentDecodeList s.data)

/-- Split a character list at every occurrence of the separator
(JavaScript String.prototype.split with a one-character separator:
both separators the postback parser uses, the ampersand and the
equals sign, are single characters). -/
def splitOnChar (sep : Char) : List Char → List (List Char)
  | [] => [[]]
  | c :: rest =>
    let r := splitOnChar sep rest
    if c = sep then [] :: r
    else
      match r with
      | [] => [[c]]
      | g :: gs => (c :: g) :: gs

/-- String.prototype.split with a one-character separator. -/
def jsSplit (s : String) (sep : Char) : List String :=
  (splitOnChar sep s.data).map String.mk

/-- The postback data parsing of handlePostback:
data.split('&'), each pair destructured as [key, value] from
pair.split('=') (extra = parts are dropped; a missing value becomes
the string undefined, as decodeURIComponent(undefined) does). -/
def parsePostbackParams (data : String) : List (String × String) :=
  (jsSplit data '&').map (fun pair =>
    match jsSplit pair '=' with
    | [] => ("", "undefined")
    | [k] => (k, "undefined")
    | k :: v :: _ => (k, decodeURIComponentModel v))

/-- params[key] after the forEach assignments: the last binding of the
key wins. -/
def paramLookup (ps : List (String × String)) (k : String) : Option String :=
  (ps.reverse.find? (fun p => p.1 == k)).map (fun p => p.2)

/-- handlePostback from src/index.js.  The switch has no default case:
an unrecognized action produces no message and no state change.  The
start_now / ready branches dereference .message on the fallback
template without a null check; a missing fallback is a thrown
TypeError, modelled as the error value. -/
def handlePostback (uid replyToken data : String) (st : Store) (now : Date)
    (rand : Nat) (fm : String → Option String) :
    Except Unit (Store × List OutMessage) :=
  let params := parsePostbackParams data
  let action := paramLookup params "action"
  if action = some "start_now" ∨ action = some "start_week" then
    match getMessage "START_READY" st with
    | some m =>
      .ok (updateUserStatus uid "waiting_theme" st now,
        [.reply replyToken (createMessageObject m.message m.buttons)])
    | none =>
      match getMessage "START_READY_FALLBACK" st with
      | some fb =>
        .ok (updateUserStatus uid "waiting_theme" st now,
          [.reply replyToken (createMessageObject fb.message none)])
      | none => .error ()
  else if action = some "ready" then
    match getMessage "THEME_SELECT" st with
    | some m =>
      .ok (st, [.reply replyToken (createMessageObject m.message m.buttons)])
    | none =>
      match getMessage "THEME_SELECT_FALLBACK" st with
      | some fb =>
        .ok (st, [.reply replyToken (createMessageObject fb.message none)])
      | none => .error ()
  else if action = some "select_theme" then
    .ok (handleThemeSelection replyToken uid
      ((paramLookup params "theme").getD "undefined") st now)
  else if action = some "start_question" then
    let o := sendDailyQuestionForUser uid st now rand fm
    .ok (o.store, o.out)
  else if action = some "how_to_play" then
    .ok (st, [replyWithText replyToken "HOW_TO_PLAY" st "HOW_TO_PLAY_FALLBACK"])
  else if action = some "later" then
    .ok (updateUserStatus uid "waiting_monday" st now,
      [replyWithText replyToken "LATER" st "LATER_FALLBACK"])
  else if action = some "show_record" then
    .ok (updateUserStatus uid "saturday_showed_record" st now,
      [.reply replyToken (.text (getWeeklyRecords uid st))])
  else
    .ok (st, [])

/-! ## Scheduled batch triggers (section 6 of src/index.js) -/

/-- The per-user outcome inside the Monday theme-selection loop. -/
inductive MondayOutcome where
  | sentOut
  | skippedOut
  | erroredOut (e : String)
deriving Repr, DecidableEq

/-- The eligibility test of the Monday loop: waiting_monday,
saturday_showed_record, or active with a stale currentWeek. -/
def mondayShouldSend (row : UserRow) (now : Date) : Bool :=
  row.status == "waiting_monday" || row.status == "saturday_showed_record" ||
    (row.status == "active" && !(row.currentWeek == getCurrentWeekString now))

/-- One iteration of the Monday theme-selection loop: push the
template and move the row to waiting_theme; a throwing push leaves the
row untouched and is recorded as an error; ineligible rows are
skipped. -/
def mondayProcessRow (mondayMsg : MessageRow) (now : Date)
    (fm : String → Option String) (row : UserRow) :
    UserRow × MondayOutcome × List OutMessage :=
  if mondayShouldSend row now then
    match fm row.userId with
    | some e => (row, .erroredOut e, [])
    | none =>
      ({ row with status := "waiting_theme", lastActive := some now },
       .sentOut,
       [.push row.userId (createMessageObject mondayMsg.message
          mondayMsg.buttons)])
  else (row, .skippedOut, [])

/-- The summary object sendMondayThemeSelection builds. -/
structure MondaySummary where
  totalUsers : Nat
  sentCount : Nat
  skippedCount : Nat
  errorCount : Nat
  results : List String
deriving Repr, DecidableEq

/-- The Monday loop over the user rows, accumulating the new rows, the
counters, the per-user result strings and the outbound pushes. -/
def mondayLoop (mondayMsg : MessageRow) (now : Date)
    (fm : String → Option String) :
    List UserRow → List UserRow × Nat × Nat × Nat × List String × List OutMessage
  | [] => ([], 0, 0, 0, [], [])
  | row :: rest =>
    let pr := mondayProcessRow mondayMsg now fm row
    let rec_ := mondayLoop mondayMsg now fm rest
    match pr.2.1 with
    | .sentOut =>
      (pr.1 :: rec_.1, rec_.2.1 + 1, rec_.2.2.1, rec_.2.2.2.1,
       ("User " ++ row.userId ++ ": Sent (was: " ++ row.status ++ ")") ::
         rec_.2.2.2.2.1,
       pr.2.2 ++ rec_.2.2.2.2.2)
    | .skippedOut =>
      (pr.1 :: rec_.1, rec_.2.1, rec_.2.2.1 + 1, rec_.2.2.2.1,
       ("User " ++ row.userId ++ ": Skipped (status: " ++ row.status ++
         ", week: " ++ row.currentWeek ++ ")") :: rec_.2.2.2.2.1,
       pr.2.2 ++ rec_.2.2.2.2.2)
    | .erroredOut err =>
      (pr.1 :: rec_.1, rec_.2.1, rec_.2.2.1, rec_.2.2.2.1 + 1,
       ("User " ++ row.userId ++ ": ERROR - " ++ err) :: rec_.2.2.2.2.1,
       pr.2.2 ++ rec_.2.2.2.2.2)

/-- sendMondayThemeSelection from src/index.js: missing MONDAY_WEEK1
template aborts with no summary (the function returns undefined);
otherwise every row is processed and a summary is returned. -/
def sendMondayThemeSelection (st : Store) (now : Date)
    (fm : String → Option String) :
    Option MondaySummary × Store × List OutMessage :=
  match getMessage "MONDAY_WEEK1" st with
  | none => (none, st, [])
  | some mondayMsg =>
    let lp := mondayLoop mondayMsg now fm st.users
    (some { totalUsers := st.users.length, sentCount := lp.2.1,
            skippedCount := lp.2.2.1, errorCount := lp.2.2.2.1,
            results := lp.2.2.2.2.1 },
     { st with users := lp.1 }, lp.2.2.2.2.2)

/-- The summary object sendDailyQuestion builds (it has no error
counter: per-user failures come back from sendDailyQuestionForUser as
sent = false and are counted as skips). -/
structure DailySummary where
  totalUsers : Nat
  sentCount : Nat
  skippedCount : Nat
  skippedReasons : List String
deriving Repr, DecidableEq

/-- The daily-question loop over the user ids, threading the store. -/
def dailyLoop (now : Date) (rand : String → Nat)
    (fm : String → Option String) :
    List String → Store → (Nat × Nat × List String) × Store × List OutMessage
  | [], st => ((0, 0, []), st, [])
  | uid :: rest, st =>
    let o := sendDailyQuestionForUser uid st now (rand uid) fm
    let rec_ := dailyLoop now rand fm rest o.store
    if o.sent then
      ((rec_.1.1 + 1, rec_.1.2.1, rec_.1.2.2), rec_.2.1, o.out ++ rec_.2.2)
    else
      ((rec_.1.1, rec_.1.2.1 + 1,
        ("User " ++ uid ++ ": " ++ o.reason) :: rec_.1.2.2), rec_.2.1,
       o.out ++ rec_.2.2)

/-- sendDailyQuestion from src/index.js. -/
def sendDailyQuestion (st : Store) (now : Date) (rand : String → Nat)
    (fm : String → Option String) :
    DailySummary × Store × List OutMessage :=
  let lp := dailyLoop now rand fm (st.users.map (fun r => r.userId)) st
  ({ totalUsers := st.users.length, sentCount := lp.1.1,
     skippedCount := lp.1.2.1, skippedReasons := lp.1.2.2 }, lp.2.1, lp.2.2)

/-- One iteration of the sendSaturdayReview loop.  For an eligible row
(active or waiting_answer, with a theme) the template id is chosen by
the weekly non-skipped answer count; the push sits inside the try
before row.save, so a throwing push leaves the counter untouched.
Returns the new row, the selected template id (none when ineligible)
and the outbound pushes. -/
def saturdayReviewForRow (st : Store)
    (fm : String → Option String) (row : UserRow) :
    UserRow × Option String × List OutMessage :=
  if (row.status == "active" || row.status == "waiting_answer") &&
      !(row.currentTheme == "") then
    let responseDays := countWeeklyResponses row.userId row.currentWeek st
    let messageId :=
      if responseDays = 0 then "SATURDAY_NO_RESPONSE" else "SATURDAY_START"
    let newCount := if responseDays = 0 then row.noResponseWeek + 1 else 0
    match getMessage messageId st with
    | some m =>
      match fm row.userId with
      | some _ => (row, some messageId, [])
      | none =>
        let themeChinese := (THEME_MAP row.currentTheme).getD row.currentTheme
        let messageText := jsReplaceOnce m.message "【主題】" themeChinese
        ({ row with noResponseWeek := newCount }, some messageId,
         [.push row.userId (createMessageObject messageText
            (if responseDays > 0 then m.buttons else none))])
    | none => ({ row with noResponseWeek := newCount }, some messageId, [])
  else (row, none, [])

/-- sendSaturdayReview from src/index.js: apply the per-row step to
every user (answers are never modified during the loop, so each row
sees the initial store); the function returns no summary. -/
def sendSaturdayReview (st : Store)
    (fm : String → Option String) : Store × List OutMessage :=
  ({ st with
     users := st.users.map (fun r => (saturdayReviewForRow st fm r).1) },
   (st.users.map (fun r => (saturdayReviewForRow st fm r).2.2)).flatten)

/-! ## Shared lemmas -/

/-- find? after updating the first matching element: the hit is the
image of the original hit. -/
theorem find?_updateFirst {α} (p : α → Bool) (f : α → α)
    (hf : ∀ x, p x = true → p (f x) = true) :
    ∀ l : List α, (updateFirst p f l).find? p = (l.find? p).map f := by
  intro l
  induction l with
  | nil => rfl
  | cons x xs ih =>
    by_cases hp : p x = true
    · rw [updateFirst, if_pos hp, List.find?_cons_of_pos _ (hf x hp),
        List.find?_cons_of_pos _ hp, Option.map_some']
    · have hp' : p x = false := by
        cases h : p x
        · rfl
        · exact absurd h hp
      rw [updateFirst, if_neg (by simp [hp']), List.find?_cons_of_neg _ (by simp [hp']),
        List.find?_cons_of_neg _ (by simp [hp']), ih]

/-- findUser through a first-match user update that preserves the
user id. -/
theorem findUser_update (st : Store) (uid : String) (f : UserRow → UserRow)
    (hf : ∀ r, (f r).userId = r.userId) :
    findUser
      { st with users := updateFirst (fun r => r.userId == uid) f st.users }
      uid = (findUser st uid).map f := by
  unfold findUser
  exact find?_updateFirst _ f
    (by intro x hx; simp only [beq_iff_eq] at hx ⊢; rw [hf, hx]) st.users

/-- At least two distinct values of f on a list, phrased through
dedup. -/
theorem dedup_two_iff {α β : Type} [DecidableEq β] (f : α → β)
    (l : List α) :
    2 ≤ (l.map f).dedup.length ↔ ∃ a ∈ l, ∃ b ∈ l, f a ≠ f b := by
  rw [← List.card_toFinset]
  constructor
  · intro h
    obtain ⟨x, hx, y, hy, hxy⟩ := Finset.one_lt_card.mp h
    rw [List.mem_toFinset, List.mem_map] at hx hy
    obtain ⟨a, ha, rfl⟩ := hx
    obtain ⟨b, hb, rfl⟩ := hy
    exact ⟨a, ha, b, hb, hxy⟩
  · rintro ⟨a, ha, b, hb, hab⟩
    refine Finset.one_lt_card.mpr ⟨f a, ?_, f b, ?_, hab⟩
    · rw [List.mem_toFinset, List.mem_map]; exact ⟨a, ha, rfl⟩
    · rw [List.mem_toFinset, List.mem_map]; exact ⟨b, hb, rfl⟩

/-! ## The claims -/

/-- C6: getWeekNumber agrees with the ISO-8601 reference table on the
year boundary: 2024-01-01 (a Monday) is week 1, and 2023-12-31 (a
Sunday) is week 52 of ISO week-based year 2023. -/
theorem getWeekNumber_reference_dates :
    dayOfWeek ⟨2024, 0, 1⟩ = 1 ∧ getWeekNumber ⟨2024, 0, 1⟩ = 1 ∧
    dayOfWeek ⟨2023, 11, 31⟩ = 0 ∧ getWeekNumber ⟨2023, 11, 31⟩ = 52 ∧
    isoWeekYearOf ⟨2023, 11, 31⟩ = 2023 := by
  refine ⟨by decide, by decide, by decide, by decide, by decide⟩

/-- C7: the monthly-summary eligibility check succeeds exactly when
the user's answers of the current calendar month carry at least two
distinct week identifiers (so in particular it fails when all such
answers share one week, or when there are none). -/
theorem monthly_eligibility_iff_two_weeks (uid : String) (st : Store)
    (now : Date) :
    hasEnoughMonthlyData uid st now = true ↔
      ∃ r1 ∈ st.answers, ∃ r2 ∈ st.answers,
        (r1.userId = uid ∧ r1.timestamp.month = now.month ∧
          r1.timestamp.year = now.year) ∧
        (r2.userId = uid ∧ r2.timestamp.month = now.month ∧
          r2.timestamp.year = now.year) ∧
        r1.week ≠ r2.week := by
  simp only [hasEnoughMonthlyData]
  split
  · next h0 =>
    rw [List.length_eq_zero] at h0
    constructor
    · intro h; exact absurd h (by simp)
    · rintro ⟨r1, hr1, r2, hr2, ⟨h1a, h1b, h1c⟩, _, _⟩
      have : r1 ∈ st.answers.filter (fun r =>
          r.userId == uid && decide (r.timestamp.month = now.month)
            && decide (r.timestamp.year = now.year)) := by
        rw [List.mem_filter]
        exact ⟨hr1, by simp [h1a, h1b, h1c]⟩
      rw [h0] at this
      exact absurd this (List.not_mem_nil r1)
  · next h0 =>
    rw [decide_eq_true_iff, ge_iff_le, dedup_two_iff]
    constructor
    · rintro ⟨a, ha, b, hb, hab⟩
      rw [List.mem_filter] at ha hb
      obtain ⟨ha1, ha2⟩ := ha
      obtain ⟨hb1, hb2⟩ := hb
      simp only [Bool.and_eq_true, beq_iff_eq, decide_eq_true_iff] at ha2 hb2
      exact ⟨a, ha1, b, hb1, ⟨ha2.1.1, ha2.1.2, ha2.2⟩,
        ⟨hb2.1.1, hb2.1.2, hb2.2⟩, hab⟩
    · rintro ⟨r1, hr1, r2, hr2, ⟨h1a, h1b, h1c⟩, ⟨h2a, h2b, h2c⟩, hw⟩
      refine ⟨r1, ?_, r2, ?_, hw⟩
      · rw [List.mem_filter]; exact ⟨hr1, by simp [h1a, h1b, h1c]⟩
      · rw [List.mem_filter]; exact ⟨hr2, by simp [h2a, h2b, h2c]⟩

/-- C1: a select_theme postback for a waiting_theme user leaves the
record active, with the chosen theme and the current week string. -/
theorem theme_postback_sets_active_theme_week
    (st : Store) (replyToken uid theme : String) (now : Date) (row : UserRow)
    (hfind : findUser st uid = some row)
    (_hstatus : row.status = "waiting_theme") :
    ∃ row',
      findUser (handleThemeSelection replyToken uid theme st now).1 uid =
        some row' ∧
      row'.status = "active" ∧ row'.currentTheme = theme ∧
      row'.currentWeek = getCurrentWeekString now := by
  have h1 : (handleThemeSelection replyToken uid theme st now).1 =
      saveUserTheme uid theme st now := rfl
  rw [h1]
  unfold saveUserTheme
  rw [findUser_update st uid
    (fun r =>
      { r with
          status := "active", currentTheme := theme,
          currentWeek := getCurrentWeekString now, lastActive := some now })
    (fun r => rfl), hfind]
  exact ⟨_, rfl, rfl, rfl, rfl⟩

/-- Sample data for the C1 witness: a waiting_theme user on a
Monday. -/
def uC1 : UserRow :=
  { userId := "u1", status := "waiting_theme", currentTheme := "",
    currentWeek := "", lastActive := none, lastQuestionId := "",
    noResponseWeek := 0, createdAt := none }

/-- Store for the C1 witness. -/
def stC1 : Store := { users := [uC1], answers := [], messages := [], questions := [] }

/-- Witness for C1 at a concrete store and date (Monday
2026-10-12). -/
theorem theme_postback_sets_active_theme_week_witness :
    findUser stC1 "u1" = some uC1 ∧ uC1.status = "waiting_theme" ∧
    (∃ row',
      findUser (handleThemeSelection "rt" "u1" "SELF" stC1 ⟨2026, 9, 12⟩).1
        "u1" = some row' ∧
      row'.status = "active" ∧ row'.currentTheme = "SELF" ∧
      row'.currentWeek = getCurrentWeekString ⟨2026, 9, 12⟩) :=
  ⟨by decide, by decide,
   theme_postback_sets_active_theme_week stC1 "rt" "u1" "SELF" ⟨2026, 9, 12⟩
     uC1 (by decide) (by decide)⟩

/-- C10: a text message from a waiting_answer user with no pending
question (empty lastQuestionId) writes nothing to the Answers sheet
and leaves the user's row untouched by saveUserAnswer, while the
handler still replies once and moves the status to active. -/
theorem answer_without_pending_question_ignored
    (st : Store) (uid replyToken text : String) (now : Date) (row : UserRow)
    (hfind : findUser st uid = some row)
    (hstatus : row.status = "waiting_answer")
    (hq : row.lastQuestionId = "") :
    saveUserAnswer uid text st now = st ∧
    (handleTextMessage uid replyToken text st now).1.answers = st.answers ∧
    (∃ m, (handleTextMessage uid replyToken text st now).2 =
      [OutMessage.reply replyToken m]) ∧
    ∃ row',
      findUser (handleTextMessage uid replyToken text st now).1 uid =
        some row' ∧
      row'.status = "active" ∧ row'.noResponseWeek = row.noResponseWeek ∧
      row'.lastQuestionId = "" := by
  have hgc : getOrCreateUser uid st now = (row, st) := by
    unfold getOrCreateUser; rw [hfind]
  have hsave : saveUserAnswer uid text st now = st := by
    simp only [saveUserAnswer, hgc]
    rw [if_pos hq]
  have hmain : handleTextMessage uid replyToken text st now =
      (updateUserStatus uid "active" st now,
       [replyWithText replyToken "HEARD" st]) := by
    simp only [handleTextMessage, hgc, hstatus]
    simp only [hsave]
    simp
  rw [hmain]
  refine ⟨hsave, rfl, ⟨_, rfl⟩, ?_⟩
  unfold updateUserStatus
  rw [findUser_update st uid
    (fun r => { r with status := "active", lastActive := some now })
    (fun r => rfl), hfind]
  exact ⟨_, rfl, rfl, rfl, hq⟩

/-- Sample user for the C10 witness. -/
def uC10 : UserRow :=
  { userId := "u1", status := "waiting_answer", currentTheme := "SELF",
    currentWeek := "2026-W42", lastActive := some ⟨2026, 9, 12⟩,
    lastQuestionId := "", noResponseWeek := 7, createdAt := none }

/-- Store for the C10 witness. -/
def stC10 : Store :=
  { users := [uC10], answers := [], messages := [], questions := [] }

/-- Witness for C10 at a concrete store. -/
theorem answer_without_pending_question_ignored_witness :
    findUser stC10 "u1" = some uC10 ∧ uC10.lastQuestionId = "" ∧
    (saveUserAnswer "u1" "hello" stC10 ⟨2026, 9, 13⟩ = stC10 ∧
     (handleTextMessage "u1" "rt" "hello" stC10 ⟨2026, 9, 13⟩).1.answers =
       stC10.answers ∧
     (∃ m, (handleTextMessage "u1" "rt" "hello" stC10 ⟨2026, 9, 13⟩).2 =
       [OutMessage.reply "rt" m]) ∧
     ∃ row',
       findUser (handleTextMessage "u1" "rt" "hello" stC10 ⟨2026, 9, 13⟩).1
         "u1" = some row' ∧
       row'.status = "active" ∧ row'.noResponseWeek = uC10.noResponseWeek ∧
       row'.lastQuestionId = "") :=
  ⟨by decide, by decide,
   answer_without_pending_question_ignored stC10 "u1" "rt" "hello"
     ⟨2026, 9, 13⟩ uC10 (by decide) (by decide) (by decide)⟩

/-- findUser reads only the users list. -/
theorem findUser_mk (users : List UserRow) (answers : List AnswerRow)
    (messages : List MessageRow) (questions : List QuestionRow)
    (uid : String) :
    findUser
      { users := users, answers := answers, messages := messages,
        questions := questions } uid =
      users.find? (fun r => r.userId == uid) := rfl

/-- The answer record saveUserAnswer appends for a user row with a
pending question. -/
def pendingAnswerRec (uid text : String) (row : UserRow) (st : Store)
    (now : Date) : AnswerRow :=
  { answerId := "A" ++ toString now.toDays, userId := uid,
    week := row.currentWeek, theme := row.currentTheme,
    day := getCurrentDayString now,
    questionId :=
      match getQuestionById row.lastQuestionId st with
      | some qq => qq.questionId
      | none => "N/A",
    question :=
      match getQuestionById row.lastQuestionId st with
      | some qq => qq.question
      | none => "N/A",
    answer := text, skipped := "FALSE", timestamp := now }

/-- C2 (amended): a text message from a waiting_answer user with a
pending question appends exactly one answer record with skipped FALSE
carrying the user's theme, week and today's day token, resets
noResponseWeek to 0, clears lastQuestionId, replies once, and moves
the status to active. -/
theorem waiting_answer_text_appends_one_answer
    (st : Store) (uid replyToken text : String) (now : Date) (row : UserRow)
    (hfind : findUser st uid = some row)
    (hstatus : row.status = "waiting_answer")
    (hq : ¬row.lastQuestionId = "") :
    (∃ rec,
      (handleTextMessage uid replyToken text st now).1.answers =
        st.answers ++ [rec] ∧
      rec.skipped = "FALSE" ∧ rec.theme = row.currentTheme ∧
      rec.week = row.currentWeek ∧ rec.day = getCurrentDayString now) ∧
    (∃ m, (handleTextMessage uid replyToken text st now).2 =
      [OutMessage.reply replyToken m]) ∧
    ∃ row',
      findUser (handleTextMessage uid replyToken text st now).1 uid =
        some row' ∧
      row'.status = "active" ∧ row'.noResponseWeek = 0 ∧
      row'.lastQuestionId = "" := by
  have hgc : getOrCreateUser uid st now = (row, st) := by
    unfold getOrCreateUser; rw [hfind]
  have hsave : saveUserAnswer uid text st now =
      { st with
        answers := st.answers ++ [pendingAnswerRec uid text row st now],
        users := updateFirst (fun r => r.userId == uid)
          (fun r => { r with noResponseWeek := 0, lastQuestionId := "" })
          st.users } := by
    simp only [saveUserAnswer, hgc, pendingAnswerRec]
    rw [if_neg hq]
  have hmain : handleTextMessage uid replyToken text st now =
      (updateUserStatus uid "active" (saveUserAnswer uid text st now) now,
       [replyWithText replyToken "HEARD" (saveUserAnswer uid text st now)]) := by
    simp only [handleTextMessage, hgc, hstatus]
    simp
  rw [hmain]
  refine ⟨⟨pendingAnswerRec uid text row st now, ?_, rfl, rfl, rfl, rfl⟩,
    ⟨_, rfl⟩, ?_⟩
  · show (updateUserStatus uid "active" (saveUserAnswer uid text st now)
      now).answers = _
    rw [hsave]
    rfl
  · unfold updateUserStatus
    rw [hsave]
    rw [findUser_mk]
    rw [find?_updateFirst (fun r : UserRow => r.userId == uid)
        (fun r => { r with status := "active", lastActive := some now })
        (fun x hx => hx),
      find?_updateFirst (fun r : UserRow => r.userId == uid)
        (fun r => { r with noResponseWeek := 0, lastQuestionId := "" })
        (fun x hx => hx)]
    have hfind' : st.users.find? (fun r => r.userId == uid) = some row := hfind
    rw [hfind']
    exact ⟨_, rfl, rfl, rfl, rfl⟩

/-- Sample user for the C2 counterexample: waiting_answer but with an
empty lastQuestionId. -/
def uC2x : UserRow :=
  { userId := "u1", status := "waiting_answer", currentTheme := "SELF",
    currentWeek := "2026-W42", lastActive := some ⟨2026, 9, 12⟩,
    lastQuestionId := "", noResponseWeek := 5, createdAt := none }

/-- Store for the C2 counterexample. -/
def stC2x : Store :=
  { users := [uC2x], answers := [], messages := [], questions := [] }

/-- Counterexample to C2 as stated: a waiting_answer user whose
lastQuestionId is empty sends a text message, yet no answer record is
appended and noResponseWeek stays 5 instead of resetting to 0. -/
theorem waiting_answer_empty_pending_appends_nothing :
    uC2x.status = "waiting_answer" ∧
    (handleTextMessage "u1" "rt" "hello" stC2x ⟨2026, 9, 13⟩).1.answers =
      [] ∧
    (findUser (handleTextMessage "u1" "rt" "hello" stC2x ⟨2026, 9, 13⟩).1
        "u1").map (fun r => r.noResponseWeek) = some 5 := by
  refine ⟨by decide, by decide, by decide⟩

/-- Sample user for the C2 witness: waiting_answer with a pending
question. -/
def uC2 : UserRow :=
  { userId := "u1", status := "waiting_answer", currentTheme := "SELF",
    currentWeek := "2026-W42", lastActive := some ⟨2026, 9, 12⟩,
    lastQuestionId := "Q1", noResponseWeek := 5, createdAt := none }

/-- Store for the C2 witness. -/
def stC2 : Store :=
  { users := [uC2], answers := [], messages := [], questions := [] }

/-- Witness for the amended C2 at a concrete store. -/
theorem waiting_answer_text_appends_one_answer_witness :
    findUser stC2 "u1" = some uC2 ∧ uC2.status = "waiting_answer" ∧
    ¬uC2.lastQuestionId = "" ∧
    ((∃ rec,
      (handleTextMessage "u1" "rt" "hi" stC2 ⟨2026, 9, 13⟩).1.answers =
        stC2.answers ++ [rec] ∧
      rec.skipped = "FALSE" ∧ rec.theme = uC2.currentTheme ∧
      rec.week = uC2.currentWeek ∧
      rec.day = getCurrentDayString ⟨2026, 9, 13⟩) ∧
    (∃ m, (handleTextMessage "u1" "rt" "hi" stC2 ⟨2026, 9, 13⟩).2 =
      [OutMessage.reply "rt" m]) ∧
    ∃ row',
      findUser (handleTextMessage "u1" "rt" "hi" stC2 ⟨2026, 9, 13⟩).1
        "u1" = some row' ∧
      row'.status = "active" ∧ row'.noResponseWeek = 0 ∧
      row'.lastQuestionId = "") :=
  ⟨by decide, by decide, by decide,
   waiting_answer_text_appends_one_answer stC2 "u1" "rt" "hi" ⟨2026, 9, 13⟩
     uC2 (by decide) (by decide) (by decide)⟩

/-- C8: an inbound text message from a user with status new, idle,
waiting_monday, or no status (including an absent record, which
getOrCreateUser creates with status new) is answered with the welcome
template selected by today's weekday, and the status becomes
waiting_theme on Monday and waiting_monday otherwise (provided the
weekday's welcome template exists). -/
theorem new_user_text_gets_weekday_welcome
    (st : Store) (uid replyToken text : String) (now : Date) (m : MessageRow)
    (hstatus : findUser st uid = none ∨
      ∃ row, findUser st uid = some row ∧
        (row.status = "" ∨ row.status = "new" ∨ row.status = "idle" ∨
          row.status = "waiting_monday"))
    (hmsg : getMessage
      (if dayOfWeek now = 1 then "WELCOME_MONDAY" else "WELCOME_OTHER_DAY")
      st = some m) :
    (handleTextMessage uid replyToken text st now).2 =
      [OutMessage.reply replyToken
        (createMessageObject m.message m.buttons)] ∧
    ∃ row',
      findUser (handleTextMessage uid replyToken text st now).1 uid =
        some row' ∧
      row'.status =
        (if dayOfWeek now = 1 then "waiting_theme" else "waiting_monday") := by
  rcases hstatus with hnone | ⟨row, hfind, hst⟩
  · -- absent record: getOrCreateUser appends a fresh row with status new
    have hgc : getOrCreateUser uid st now =
        ({ userId := uid, status := "new", currentTheme := "",
           currentWeek := "", lastActive := none, lastQuestionId := "",
           noResponseWeek := 0, createdAt := some now },
         { st with users := st.users ++
            [{ userId := uid, status := "new", currentTheme := "",
               currentWeek := "", lastActive := none, lastQuestionId := "",
               noResponseWeek := 0, createdAt := some now }] }) := by
      unfold getOrCreateUser
      rw [hnone]
    have hmsg' : getMessage
        (if dayOfWeek now = 1 then "WELCOME_MONDAY" else "WELCOME_OTHER_DAY")
        { st with users := st.users ++
            [{ userId := uid, status := "new", currentTheme := "",
               currentWeek := "", lastActive := none, lastQuestionId := "",
               noResponseWeek := 0, createdAt := some now }] } = some m := hmsg
    have hmain : handleTextMessage uid replyToken text st now =
        sendWelcomeMessage replyToken uid
          { st with users := st.users ++
            [{ userId := uid, status := "new", currentTheme := "",
               currentWeek := "", lastActive := none, lastQuestionId := "",
               noResponseWeek := 0, createdAt := some now }] } now := by
      simp only [handleTextMessage, hgc]
      simp
    rw [hmain]
    simp only [sendWelcomeMessage]
    rw [hmsg']
    refine ⟨rfl, ?_⟩
    unfold updateUserStatus
    rw [findUser_mk]
    rw [find?_updateFirst (fun r : UserRow => r.userId == uid)
        (fun r =>
          { r with
              status := if dayOfWeek now = 1 then "waiting_theme"
                else "waiting_monday",
              lastActive := some now })
        (fun x hx => hx)]
    rw [List.find?_append]
    have hnone' : st.users.find? (fun r => r.userId == uid) = none := hnone
    rw [hnone']
    simp only [Option.none_or, List.find?_cons, List.find?_nil,
      beq_self_eq_true, Option.map_some']
    exact ⟨_, rfl, rfl⟩
  · -- existing record with a pre-welcome status
    have hgc : getOrCreateUser uid st now = (row, st) := by
      unfold getOrCreateUser; rw [hfind]
    have hcond : row.status = "" ∨ row.status = "new" ∨ row.status = "idle" ∨
        row.status = "waiting_monday" := hst
    have hmain : handleTextMessage uid replyToken text st now =
        sendWelcomeMessage replyToken uid st now := by
      simp only [handleTextMessage, hgc]
      rw [if_pos hcond]
    rw [hmain]
    simp only [sendWelcomeMessage]
    rw [hmsg]
    refine ⟨rfl, ?_⟩
    unfold updateUserStatus
    rw [findUser_update st uid
      (fun r =>
        { r with
            status := if dayOfWeek now = 1 then "waiting_theme"
              else "waiting_monday",
            lastActive := some now })
      (fun r => rfl), hfind]
    exact ⟨_, rfl, rfl⟩

/-- Sample user for the C8 witness. -/
def uC8 : UserRow :=
  { userId := "u1", status := "new", currentTheme := "", currentWeek := "",
    lastActive := none, lastQuestionId := "", noResponseWeek := 0,
    createdAt := none }

/-- Welcome template row for the C8 witness. -/
def mwC8 : MessageRow :=
  { messageId := "WELCOME_MONDAY", message := "welcome, pick a theme",
    buttons := none, active := true }

/-- Store for the C8 witness. -/
def stC8 : Store :=
  { users := [uC8], answers := [], messages := [mwC8], questions := [] }

/-- Witness for C8 on a Monday (2026-10-12) with the Monday welcome
template present. -/
theorem new_user_text_gets_weekday_welcome_witness :
    (findUser stC8 "u1" = none ∨
      ∃ row, findUser stC8 "u1" = some row ∧
        (row.status = "" ∨ row.status = "new" ∨ row.status = "idle" ∨
          row.status = "waiting_monday")) ∧
    ((handleTextMessage "u1" "rt" "hi" stC8 ⟨2026, 9, 12⟩).2 =
      [OutMessage.reply "rt"
        (createMessageObject mwC8.message mwC8.buttons)] ∧
    ∃ row',
      findUser (handleTextMessage "u1" "rt" "hi" stC8 ⟨2026, 9, 12⟩).1
        "u1" = some row' ∧
      row'.status =
        (if dayOfWeek (⟨2026, 9, 12⟩ : Date) = 1 then "waiting_theme"
          else "waiting_monday")) :=
  ⟨Or.inr ⟨uC8, by decide, by decide⟩,
   new_user_text_gets_weekday_welcome stC8 "u1" "rt" "hi" ⟨2026, 9, 12⟩ mwC8
     (Or.inr ⟨uC8, by decide, by decide⟩) (by decide)⟩

/-- Store for the C9 counterexample. -/
def stC9x : Store :=
  { users := [uC8], answers := [], messages := [], questions := [] }

/-- Counterexample to C9 as stated: a postback whose action value is
not one of the switch cases falls through the switch without a default
branch — no reply is sent and the store is untouched. -/
theorem unknown_postback_gets_no_reply :
    handlePostback "u1" "rt" "action=bogus" stC9x ⟨2026, 9, 12⟩ 0
      (fun _ => none) = .ok (stC9x, []) := by
  rfl

/-- Text messages always produce exactly one reply, whatever the user
state and whatever templates are missing (replyWithText bottoms out in
hardcoded text). -/
theorem handleTextMessage_reply_count
    (st : Store) (uid replyToken text : String) (now : Date) :
    (handleTextMessage uid replyToken text st now).2.length = 1 := by
  simp only [handleTextMessage, sendWelcomeMessage]
  repeat' split
  all_goals rfl

/-- C9 (amended): every inbound text message gets exactly one reply
(fallback text when templates are missing); a postback is answered for
the recognized actions select_theme, how_to_play, later and
show_record, while an unrecognized action value falls through the
switch silently. -/
theorem direct_input_reply_behaviour
    (st : Store) (uid replyToken text data : String) (now : Date)
    (rand : Nat) (fm : String → Option String) (a : String)
    (haction : paramLookup (parsePostbackParams data) "action" = some a)
    (hsafe : a = "select_theme" ∨ a = "how_to_play" ∨ a = "later" ∨
      a = "show_record") :
    (handleTextMessage uid replyToken text st now).2.length = 1 ∧
    ∃ stOut out,
      handlePostback uid replyToken data st now rand fm = .ok (stOut, out) ∧
      out.length = 1 := by
  refine ⟨handleTextMessage_reply_count st uid replyToken text now, ?_⟩
  simp only [handlePostback, haction]
  rcases hsafe with rfl | rfl | rfl | rfl
  · simp only [Option.some.injEq, String.reduceEq, or_self, if_false,
      if_true, reduceIte]
    exact ⟨_, _, rfl, rfl⟩
  · simp only [Option.some.injEq, String.reduceEq, or_self, if_false,
      if_true, reduceIte]
    exact ⟨_, _, rfl, rfl⟩
  · simp only [Option.some.injEq, String.reduceEq, or_self, if_false,
      if_true, reduceIte]
    exact ⟨_, _, rfl, rfl⟩
  · simp only [Option.some.injEq, String.reduceEq, or_self, if_false,
      if_true, reduceIte]
    exact ⟨_, _, rfl, rfl⟩

/-- Witness for the amended C9: a later postback on a concrete
store. -/
theorem direct_input_reply_behaviour_witness :
    paramLookup (parsePostbackParams "action=later") "action" =
      some "later" ∧
    ((handleTextMessage "u1" "rt" "hi" stC9x ⟨2026, 9, 12⟩).2.length = 1 ∧
     ∃ stOut out,
       handlePostback "u1" "rt" "action=later" stC9x ⟨2026, 9, 12⟩ 0
         (fun _ => none) = .ok (stOut, out) ∧
       out.length = 1) :=
  ⟨by rfl,
   direct_input_reply_behaviour stC9x "u1" "rt" "hi" "action=later"
     ⟨2026, 9, 12⟩ 0 (fun _ => none) "later" (by rfl)
     (Or.inr (Or.inr (Or.inl rfl)))⟩

/-- C4: the end-of-week review for an eligible user (active or
waiting_answer, with a theme, and whose push does not throw) selects
the no-response template and bumps noResponseWeek by exactly one when
the weekly non-skipped answer count is zero, and selects the
start-review template and resets noResponseWeek to zero when the count
is positive. -/
theorem saturday_review_template_and_counter
    (st : Store) (fm : String → Option String) (row : UserRow)
    (hstatus : row.status = "active" ∨ row.status = "waiting_answer")
    (htheme : ¬row.currentTheme = "")
    (hok : fm row.userId = none) :
    (countWeeklyResponses row.userId row.currentWeek st = 0 →
      (saturdayReviewForRow st fm row).2.1 = some "SATURDAY_NO_RESPONSE" ∧
      (saturdayReviewForRow st fm row).1.noResponseWeek =
        row.noResponseWeek + 1) ∧
    (0 < countWeeklyResponses row.userId row.currentWeek st →
      (saturdayReviewForRow st fm row).2.1 = some "SATURDAY_START" ∧
      (saturdayReviewForRow st fm row).1.noResponseWeek = 0) := by
  have hcond : ((row.status == "active" || row.status == "waiting_answer") &&
      !(row.currentTheme == "")) = true := by
    rcases hstatus with h | h <;> simp [h, htheme]
  constructor
  · intro h0
    simp only [saturdayReviewForRow, hcond, if_true, h0, hok]
    split
    · exact ⟨rfl, rfl⟩
    · exact ⟨rfl, rfl⟩
  · intro h1
    have hne : ¬countWeeklyResponses row.userId row.currentWeek st = 0 :=
      Nat.pos_iff_ne_zero.mp h1
    simp only [saturdayReviewForRow, hcond, if_true, hne, hok, if_false]
    split
    · exact ⟨rfl, rfl⟩
    · exact ⟨rfl, rfl⟩

/-- User row for the C4 witness. -/
def uC4 : UserRow :=
  { userId := "u1", status := "active", currentTheme := "SELF",
    currentWeek := "2026-W42", lastActive := some ⟨2026, 9, 12⟩,
    lastQuestionId := "", noResponseWeek := 3, createdAt := none }

/-- Store for the C4 witness, zero-answers side. -/
def stC4a : Store :=
  { users := [uC4], answers := [], messages := [], questions := [] }

/-- One non-skipped answer of the current week, for the C4 witness. -/
def ansC4 : AnswerRow :=
  { answerId := "A1", userId := "u1", week := "2026-W42", theme := "SELF",
    day := "TUE", questionId := "Q1", question := "q", answer := "a",
    skipped := "FALSE", timestamp := ⟨2026, 9, 13⟩ }

/-- Store for the C4 witness, one-answer side. -/
def stC4b : Store :=
  { users := [uC4], answers := [ansC4], messages := [], questions := [] }

/-- Witness for C4: both count cases at concrete stores. -/
theorem saturday_review_template_and_counter_witness :
    (countWeeklyResponses "u1" "2026-W42" stC4a = 0 ∧
     (saturdayReviewForRow stC4a (fun _ => none) uC4).2.1 =
       some "SATURDAY_NO_RESPONSE" ∧
     (saturdayReviewForRow stC4a (fun _ => none) uC4).1.noResponseWeek = 4) ∧
    (countWeeklyResponses "u1" "2026-W42" stC4b = 1 ∧
     (saturdayReviewForRow stC4b (fun _ => none) uC4).2.1 =
       some "SATURDAY_START" ∧
     (saturdayReviewForRow stC4b (fun _ => none) uC4).1.noResponseWeek = 0) := by
  have ha := (saturday_review_template_and_counter stC4a (fun _ => none) uC4
    (Or.inl rfl) (by decide) rfl).1 (by decide)
  have hb := (saturday_review_template_and_counter stC4b (fun _ => none) uC4
    (Or.inl rfl) (by decide) rfl).2 (by decide)
  exact ⟨⟨by decide, ha.1, ha.2⟩, ⟨by decide, hb.1, hb.2⟩⟩

/-- When sendDailyQuestionForUser reports sent, the user had not
answered today, the user row exists, and the store update is exactly:
status waiting_answer, lastQuestionId the chosen question, lastActive
now. -/
theorem sendDaily_success_shape (uid : String) (st : Store) (now : Date)
    (rand : Nat) (fm : String → Option String)
    (h : (sendDailyQuestionForUser uid st now rand fm).sent = true) :
    checkTodayAnswer uid st now = false ∧
    ∃ row qid, findUser st uid = some row ∧
      (sendDailyQuestionForUser uid st now rand fm).store =
        { st with
            users := updateFirst (fun r => r.userId == uid)
              (fun r =>
                { r with
                    status := "waiting_answer", lastQuestionId := qid,
                    lastActive := some now }) st.users } := by
  unfold sendDailyQuestionForUser at h ⊢
  split at h
  · simp at h
  · next row hfind =>
    rw [hfind]
    split at h
    · simp at h
    · next htoday =>
      rw [if_neg htoday]
      split at h
      · simp at h
      · next hst =>
        rw [if_neg hst]
        split at h
        · simp at h
        · next hsame =>
          rw [if_neg hsame]
          split at h
          · simp at h
          · next hth =>
            rw [if_neg hth]
            split at h
            · simp at h
            · next q _hq =>
              split at h
              · simp at h
              · next _hfm =>
                exact ⟨by simpa using htoday, row, q.questionId, rfl, rfl⟩

/-- C3: if the daily-question trigger sent a question to a user, a
second run of the same per-user step on the same day skips with the
already-sent-today reason (so at most one question is sent per day to
a user who has not answered). -/
theorem daily_trigger_second_run_skips
    (st : Store) (uid : String) (now : Date) (r1 r2 : Nat)
    (fm : String → Option String)
    (hsent : (sendDailyQuestionForUser uid st now r1 fm).sent = true) :
    (sendDailyQuestionForUser uid
        (sendDailyQuestionForUser uid st now r1 fm).store now r2 fm).sent =
      false ∧
    ∃ s,
      (sendDailyQuestionForUser uid
          (sendDailyQuestionForUser uid st now r1 fm).store now r2
          fm).reason =
        "Already sent today (status: waiting_answer, lastActive: " ++ s ++
          ")" := by
  obtain ⟨htoday, row, qid, hfind, hstore⟩ :=
    sendDaily_success_shape uid st now r1 fm hsent
  rw [hstore]
  have hfind2 : findUser
      { st with
          users := updateFirst (fun r => r.userId == uid)
            (fun r =>
              { r with
                  status := "waiting_answer", lastQuestionId := qid,
                  lastActive := some now }) st.users } uid =
      some { row with
              status := "waiting_answer", lastQuestionId := qid,
              lastActive := some now } := by
    rw [findUser_update st uid
      (fun r =>
        { r with
            status := "waiting_answer", lastQuestionId := qid,
            lastActive := some now })
      (fun r => rfl), hfind]
    rfl
  have htoday2 : checkTodayAnswer uid
      { st with
          users := updateFirst (fun r => r.userId == uid)
            (fun r =>
              { r with
                  status := "waiting_answer", lastQuestionId := qid,
                  lastActive := some now }) st.users } now = false := htoday
  unfold sendDailyQuestionForUser
  simp only [hfind2]
  rw [if_neg (by rw [htoday2]; exact Bool.false_ne_true)]
  rw [if_neg (by simp)]
  rw [if_pos (by simp [sameDayAsNow])]
  exact ⟨rfl, Date.isoString now, rfl⟩

/-- User row for the C3 witness: active with a theme and no
same-day activity. -/
def uC3 : UserRow :=
  { userId := "u1", status := "active", currentTheme := "SELF",
    currentWeek := "2026-W42", lastActive := some ⟨2026, 9, 12⟩,
    lastQuestionId := "", noResponseWeek := 0, createdAt := none }

/-- A Tuesday question for the C3 witness. -/
def qC3 : QuestionRow :=
  { questionId := "Q1", theme := "SELF", day := "TUE", question := "q?",
    active := true }

/-- Store for the C3 witness. -/
def stC3 : Store :=
  { users := [uC3], answers := [], messages := [], questions := [qC3] }

/-- Witness for C3 on Tuesday 2026-10-13: the first run sends, the
second run does not. -/
theorem daily_trigger_second_run_skips_witness :
    (sendDailyQuestionForUser "u1" stC3 ⟨2026, 9, 13⟩ 0
      (fun _ => none)).sent = true ∧
    (sendDailyQuestionForUser "u1"
        (sendDailyQuestionForUser "u1" stC3 ⟨2026, 9, 13⟩ 0
          (fun _ => none)).store ⟨2026, 9, 13⟩ 0 (fun _ => none)).sent =
      false :=
  ⟨by decide,
   (daily_trigger_second_run_skips stC3 "u1" ⟨2026, 9, 13⟩ 0 0
     (fun _ => none) (by decide)).1⟩

/-- The Monday loop counters are exactly the counts of eligible rows
with succeeding pushes (sent), ineligible rows (skipped), and eligible
rows with throwing pushes (errors). -/
theorem mondayLoop_counts (msg : MessageRow) (now : Date)
    (fm : String → Option String) (l : List UserRow) :
    (mondayLoop msg now fm l).2.1 =
      l.countP (fun r => mondayShouldSend r now && (fm r.userId).isNone) ∧
    (mondayLoop msg now fm l).2.2.1 =
      l.countP (fun r => !mondayShouldSend r now) ∧
    (mondayLoop msg now fm l).2.2.2.1 =
      l.countP (fun r => mondayShouldSend r now && (fm r.userId).isSome) := by
  induction l with
  | nil => exact ⟨rfl, rfl, rfl⟩
  | cons row rest ih =>
    obtain ⟨ih1, ih2, ih3⟩ := ih
    by_cases he : mondayShouldSend row now
    · cases hf : fm row.userId with
      | none =>
        have hpr : (mondayProcessRow msg now fm row).2.1 = .sentOut := by
          simp [mondayProcessRow, he, hf]
        simp [mondayLoop, hpr, List.countP_cons, he, hf, ih1, ih2, ih3]
      | some e =>
        have hpr : (mondayProcessRow msg now fm row).2.1 = .erroredOut e := by
          simp [mondayProcessRow, he, hf]
        simp [mondayLoop, hpr, List.countP_cons, he, hf, ih1, ih2, ih3]
    · have hpr : (mondayProcessRow msg now fm row).2.1 = .skippedOut := by
        simp [mondayProcessRow, he]
      simp [mondayLoop, hpr, List.countP_cons, he, ih1, ih2, ih3]

/-- Every daily-loop iteration counts its user as either sent or
skipped, so the two counters always add up to the population size. -/
theorem dailyLoop_total (now : Date) (rand : String → Nat)
    (fm : String → Option String) (uids : List String) :
    ∀ st : Store,
      (dailyLoop now rand fm uids st).1.1 +
        (dailyLoop now rand fm uids st).1.2.1 = uids.length := by
  induction uids with
  | nil => intro st; rfl
  | cons uid rest ih =>
    intro st
    have h := ih (sendDailyQuestionForUser uid st now (rand uid) fm).store
    by_cases hs : (sendDailyQuestionForUser uid st now (rand uid) fm).sent =
      true
    · simp only [dailyLoop, hs, if_true, List.length_cons]
      omega
    · simp only [dailyLoop, hs, Bool.false_eq_true, if_false,
        List.length_cons]
      omega

/-- A user whose push throws is never reported as sent by
sendDailyQuestionForUser. -/
theorem sendDaily_fail_not_sent (uid : String) (st : Store) (now : Date)
    (rand : Nat) (fm : String → Option String) (e : String)
    (hf : fm uid = some e) :
    (sendDailyQuestionForUser uid st now rand fm).sent = false := by
  unfold sendDailyQuestionForUser
  split
  · rfl
  · split
    · rfl
    · split
      · rfl
      · split
        · rfl
        · split
          · rfl
          · split
            · rfl
            · rw [hf]

/-- C5 (amended): batch triggers never abort on a throwing send.  The
Monday theme-selection run (with its template present) reports
totalUsers = population, classifies every eligible user with a
succeeding push as sent, every ineligible user as skipped, and counts
an error exactly for each eligible user whose push throws.  The
daily-question run also processes everyone (sent + skipped = total)
but reports no error count: a user whose push throws is never sent and
lands among the skips. -/
theorem batch_triggers_isolate_send_failures
    (st : Store) (now : Date) (fm : String → Option String)
    (rand : String → Nat) (rand1 : Nat) (uid e : String) (m : MessageRow)
    (hmsg : getMessage "MONDAY_WEEK1" st = some m)
    (hfail : fm uid = some e) :
    (∃ s, (sendMondayThemeSelection st now fm).1 = some s ∧
      s.totalUsers = st.users.length ∧
      s.sentCount = st.users.countP
        (fun r => mondayShouldSend r now && (fm r.userId).isNone) ∧
      s.skippedCount = st.users.countP (fun r => !mondayShouldSend r now) ∧
      s.errorCount = st.users.countP
        (fun r => mondayShouldSend r now && (fm r.userId).isSome)) ∧
    ((sendDailyQuestion st now rand fm).1.totalUsers = st.users.length ∧
     (sendDailyQuestion st now rand fm).1.sentCount +
       (sendDailyQuestion st now rand fm).1.skippedCount =
       st.users.length) ∧
    (sendDailyQuestionForUser uid st now rand1 fm).sent = false := by
  refine ⟨?_, ⟨rfl, ?_⟩, sendDaily_fail_not_sent uid st now rand1 fm e hfail⟩
  · have hc := mondayLoop_counts m now fm st.users
    unfold sendMondayThemeSelection
    simp only [hmsg]
    exact ⟨_, rfl, rfl, hc.1, hc.2.1, hc.2.2⟩
  · have hd := dailyLoop_total now rand fm (st.users.map (fun r => r.userId)) st
    rw [List.length_map] at hd
    exact hd

/-- User for the C5 counterexample: eligible for the daily question. -/
def uC5 : UserRow :=
  { userId := "u1", status := "active", currentTheme := "SELF",
    currentWeek := "2026-W42", lastActive := some ⟨2026, 9, 12⟩,
    lastQuestionId := "", noResponseWeek := 0, createdAt := none }

/-- A Tuesday question so the C5 counterexample flow reaches the
push. -/
def qC5 : QuestionRow :=
  { questionId := "Q5", theme := "SELF", day := "TUE", question := "q?",
    active := true }

/-- Store for the C5 counterexample. -/
def stC5 : Store :=
  { users := [uC5], answers := [], messages := [], questions := [qC5] }

/-- Push transport for C5: u1's send throws with message boom. -/
def fmC5 : String → Option String :=
  fun u => if u = "u1" then some "boom" else none

/-- Counterexample to C5 as stated: in the daily-question batch a
throwing send yields a summary with no error tally at all — the
throwing user is counted as skipped (reason 'Failed to send message')
rather than as an error. -/
theorem daily_batch_reports_failure_as_skip :
    (sendDailyQuestion stC5 ⟨2026, 9, 13⟩ (fun _ => 0) fmC5).1 =
      { totalUsers := 1, sentCount := 0, skippedCount := 1,
        skippedReasons := ["User u1: Failed to send message: boom"] } := by
  decide

/-- Monday template for the C5 witness. -/
def mwC5 : MessageRow :=
  { messageId := "MONDAY_WEEK1", message := "pick a theme", buttons := none,
    active := true }

/-- Second user for the C5 witness: eligible with a working push. -/
def uC5b : UserRow :=
  { userId := "u2", status := "waiting_monday", currentTheme := "",
    currentWeek := "", lastActive := none, lastQuestionId := "",
    noResponseWeek := 0, createdAt := none }

/-- Third user for the C5 witness: ineligible (active, current
week). -/
def uC5c : UserRow :=
  { userId := "u3", status := "active", currentTheme := "SELF",
    currentWeek := "2026-W42", lastActive := some ⟨2026, 9, 12⟩,
    lastQuestionId := "", noResponseWeek := 0, createdAt := none }

/-- Store for the C5 witness. -/
def stC5w : Store :=
  { users := [uC5, uC5b, uC5c], answers := [], messages := [mwC5],
    questions := [qC5] }

/-- Witness for the amended C5 at a three-user store on Monday
2026-10-12 where u1's push throws. -/
theorem batch_triggers_isolate_send_failures_witness :
    getMessage "MONDAY_WEEK1" stC5w = some mwC5 ∧ fmC5 "u1" = some "boom" ∧
    ((∃ s, (sendMondayThemeSelection stC5w ⟨2026, 9, 12⟩ fmC5).1 = some s ∧
      s.totalUsers = stC5w.users.length ∧
      s.sentCount = stC5w.users.countP
        (fun r => mondayShouldSend r ⟨2026, 9, 12⟩ && (fmC5 r.userId).isNone) ∧
      s.skippedCount = stC5w.users.countP
        (fun r => !mondayShouldSend r ⟨2026, 9, 12⟩) ∧
      s.errorCount = stC5w.users.countP
        (fun r => mondayShouldSend r ⟨2026, 9, 12⟩ &&
          (fmC5 r.userId).isSome)) ∧
    ((sendDailyQuestion stC5w ⟨2026, 9, 12⟩ (fun _ => 0) fmC5).1.totalUsers =
       stC5w.users.length ∧
     (sendDailyQuestion stC5w ⟨2026, 9, 12⟩ (fun _ => 0) fmC5).1.sentCount +
       (sendDailyQuestion stC5w ⟨2026, 9, 12⟩ (fun _ => 0)
         fmC5).1.skippedCount = stC5w.users.length) ∧
    (sendDailyQuestionForUser "u1" stC5w ⟨2026, 9, 12⟩ 0 fmC5).sent =
      false) :=
  ⟨by decide, by decide,
   batch_triggers_isolate_send_failures stC5w ⟨2026, 9, 12⟩ fmC5
     (fun _ => 0) 0 "u1" "boom" mwC5 (by decide) (by decide)⟩

end Liminote
